import Mathlib

/-!
Verification development for the anomaly-analysis gateway.

The development shallowly embeds the contract layer of the service:
the JSON value universe crossing the boundary, the dynamic (duck-typed)
coercion primitives the handler relies on (`float(...)`, enum construction,
`str.replace`, `datetime.fromisoformat`, dict lookup / membership), the
`Anomaly` record and its serialization (`src/src/models/anomaly.py`), and the
HTTP handler `analyze_anomaly` (`src/main.py`).

Modelling conventions, fixed once here:
* Numbers are exact rationals.  The code performs no floating-point
  arithmetic on any claimed path (values are only coerced, stored and
  re-emitted), so exact rationals are an adequate model of Python floats.
* Timestamps: `datetime.fromisoformat` is modelled on the canonical ISO-8601
  grammar `YYYY-MM-DDTHH:MM:SS[.ffffff][+HH:MM]`, which is exactly the
  grammar of the strings the relevant code paths feed to it (the handler
  rewrites a trailing `Z` to `+00:00` first) and the grammar `isoformat`
  prints.  A datetime value is carried as its canonical text.
* Exceptions are values `PyExn` recording which `except` clause of the
  handler catches them (`ValueError` vs everything else), the class name
  surfaced as `type(e).__name__`, and the message `str(e)`.  Message texts
  follow CPython but value quoting is dropped.
* Fallible evaluation is `Except PyExn`.
-/

/-- A JSON-compatible Python value: the payloads crossing the service
boundary (request bodies, response envelopes, dict fields). -/
inductive JValue where
  | null : JValue
  | bool : Bool → JValue
  | num : Rat → JValue
  | str : String → JValue
  | arr : List JValue → JValue
  | obj : List (String × JValue) → JValue

/-- Which `except` clause of `analyze_anomaly` catches an exception:
`except ValueError` (including subclasses) or the final `except Exception`. -/
inductive ExnKind where
  | valueError : ExnKind
  | other : ExnKind
deriving DecidableEq

/-- A raised Python exception: catch category, class name
(`type(e).__name__`), and message (`str(e)`). -/
structure PyExn where
  kind : ExnKind
  name : String
  msg : String
deriving DecidableEq

def PyExn.valueError (m : String) : PyExn := ⟨ExnKind.valueError, "ValueError", m⟩

def PyExn.typeError (m : String) : PyExn := ⟨ExnKind.other, "TypeError", m⟩

def PyExn.attributeError (m : String) : PyExn := ⟨ExnKind.other, "AttributeError", m⟩

def PyExn.keyError (m : String) : PyExn := ⟨ExnKind.other, "KeyError", m⟩

/-- Python type name of a JSON value, as used in CPython error messages. -/
def pyTypeName : JValue → String
  | JValue.null => "NoneType"
  | JValue.bool _ => "bool"
  | JValue.num _ => "float"
  | JValue.str _ => "str"
  | JValue.arr _ => "list"
  | JValue.obj _ => "dict"

/-- Python truthiness of a JSON value (`if not request_json:` in the
handler): `None`, `False`, `0`, `""`, `[]`, `{}` are falsy. -/
def pyFalsy : JValue → Bool
  | JValue.null => true
  | JValue.bool b => !b
  | JValue.num q => q = 0
  | JValue.str s => s = ""
  | JValue.arr xs => xs.isEmpty
  | JValue.obj kvs => kvs.isEmpty

/-- First value bound to a key in a dict's item list, if any. -/
def lookupKv : List (String × JValue) → String → Option JValue
  | [], _ => none
  | (k, v) :: t, k' => if k = k' then some v else lookupKv t k'

/-- `d[k]`-style lookup restricted to dicts; `none` when the receiver is not
a dict or the key is absent. -/
def jsonGetOpt : JValue → String → Option JValue
  | JValue.obj kvs, k => lookupKv kvs k
  | _, _ => none

/-- Python subscript `x[k]` with a string key: `KeyError` for an absent dict
key, `TypeError` for non-dict receivers. -/
def jsonGet : JValue → String → Except PyExn JValue
  | JValue.obj kvs, k =>
    match lookupKv kvs k with
    | some v => Except.ok v
    | none => Except.error (PyExn.keyError k)
  | JValue.arr _, _ =>
    Except.error (PyExn.typeError "list indices must be integers or slices, not str")
  | JValue.str _, _ =>
    Except.error (PyExn.typeError "string indices must be integers")
  | v, _ =>
    Except.error (PyExn.typeError (pyTypeName v ++ " object is not subscriptable"))

/-- Python `x.get(k, default)`: dicts only; anything else lacks the
attribute. -/
def pyDictGet (x : JValue) (k : String) (d : JValue) : Except PyExn JValue :=
  match x with
  | JValue.obj kvs => Except.ok ((lookupKv kvs k).getD d)
  | v => Except.error (PyExn.attributeError (pyTypeName v ++ " object has no attribute get"))

/-- Whether `pat` is a contiguous prefix of `s` (over character lists). -/
def startsChars : List Char → List Char → Bool
  | [], _ => true
  | _ :: _, [] => false
  | p :: pt, c :: ct => p = c && startsChars pt ct

/-- Whether `pat` occurs contiguously inside `s` (over character lists). -/
def subChars : List Char → List Char → Bool
  | pat, [] => pat.isEmpty
  | pat, c :: t => startsChars pat (c :: t) || subChars pat t

/-- Python membership `f in x` for a string `f`: dict-key membership,
list-element membership, substring test on strings; `TypeError` otherwise. -/
def jsonHasKey : JValue → String → Except PyExn Bool
  | JValue.obj kvs, f => Except.ok (kvs.any (fun kv => kv.1 = f))
  | JValue.arr xs, f =>
    Except.ok (xs.any (fun v => match v with | JValue.str s => s = f | _ => false))
  | JValue.str s, f => Except.ok (subChars f.data s.data)
  | v, _ =>
    Except.error (PyExn.typeError ("argument of type " ++ pyTypeName v ++ " is not iterable"))

/-- Value of a digit-character list read in base 10. -/
def digitsVal : List Char → Nat
  | [] => 0
  | c :: t => ((c.toNat - 48) * 10 ^ t.length) + digitsVal t

/-- All characters are decimal digits, and there is at least one. -/
def someDigits (cs : List Char) : Bool :=
  !cs.isEmpty && cs.all Char.isDigit

/-- Exponent tail of a float literal (after `e`/`E`): optional sign then a
nonempty digit run. -/
def parseExpTail (m : Rat) (cs : List Char) : Option Rat :=
  match cs with
  | '+' :: t => if someDigits t then some (m * 10 ^ (digitsVal t)) else none
  | '-' :: t => if someDigits t then some (m * (10 : Rat) ^ (-(digitsVal t : Int))) else none
  | t => if someDigits t then some (m * 10 ^ (digitsVal t)) else none

/-- Fraction-and-exponent tail of a float literal, given the sign and the
integer-part digits. -/
def parseFloatTail (sign : Rat) (ip : List Char) (cs : List Char) : Option Rat :=
  match cs with
  | [] => if ip.isEmpty then none else some (sign * digitsVal ip)
  | '.' :: t =>
    let fp := t.takeWhile Char.isDigit
    let rest := t.dropWhile Char.isDigit
    if ip.isEmpty && fp.isEmpty then none
    else
      let mant : Rat := sign * ((digitsVal ip : Rat) + (digitsVal fp : Rat) / 10 ^ fp.length)
      match rest with
      | [] => some mant
      | e :: t2 => if e = 'e' || e = 'E' then parseExpTail mant t2 else none
  | e :: t2 =>
    if (e = 'e' || e = 'E') && !ip.isEmpty then parseExpTail (sign * digitsVal ip) t2
    else none

/-- Model of CPython `float(s)` on a string: signed decimal literal with
optional fraction and exponent (`inf`/`nan`/underscores/whitespace trimming
are not exercised by the service and are left out). -/
def parseFloatLit (s : String) : Option Rat :=
  match s.data with
  | '+' :: t => parseFloatTail 1 (t.takeWhile Char.isDigit) (t.dropWhile Char.isDigit)
  | '-' :: t => parseFloatTail (-1) (t.takeWhile Char.isDigit) (t.dropWhile Char.isDigit)
  | t => parseFloatTail 1 (t.takeWhile Char.isDigit) (t.dropWhile Char.isDigit)

/-- Model of Python `float(x)` on a JSON value: numbers pass through, bools
coerce to 0/1, strings parse as float literals (`ValueError` on failure),
everything else raises `TypeError`. -/
def pyFloat : JValue → Except PyExn Rat
  | JValue.num q => Except.ok q
  | JValue.bool b => Except.ok (if b then 1 else 0)
  | JValue.str s =>
    match parseFloatLit s with
    | some q => Except.ok q
    | none => Except.error (PyExn.valueError ("could not convert string to float: " ++ s))
  | v =>
    Except.error
      (PyExn.typeError ("float() argument must be a string or a real number, not " ++ pyTypeName v))

/-- Model of `s.replace("Z", "+00:00")` from the handler's timestamp
normalization, on character lists. -/
def replaceZChars : List Char → List Char
  | [] => []
  | c :: t =>
    if c = 'Z' then '+' :: '0' :: '0' :: ':' :: '0' :: '0' :: replaceZChars t
    else c :: replaceZChars t

/-- Model of `s.replace("Z", "+00:00")` on strings. -/
def replaceZ (s : String) : String := String.mk (replaceZChars s.data)

/-- `request_json['detected_at'].replace('Z', '+00:00')`: attribute access
on a non-string raises `AttributeError`. -/
def pyReplaceZ : JValue → Except PyExn String
  | JValue.str s => Except.ok (replaceZ s)
  | v => Except.error (PyExn.attributeError (pyTypeName v ++ " object has no attribute replace"))

/-- Two-digit value at the given pair of characters. -/
def twoDigits (a b : Char) : Nat := (a.toNat - 48) * 10 + (b.toNat - 48)

/-- Offset tail of a canonical ISO-8601 string: empty, or `±HH:MM` with the
hour below 24 and the minute below 60. -/
def canonOffset : List Char → Bool
  | [] => true
  | [sg, h1, h2, ':', m1, m2] =>
    (sg = '+' || sg = '-') && [h1, h2, m1, m2].all Char.isDigit
      && twoDigits h1 h2 < 24 && twoDigits m1 m2 < 60
  | _ => false

/-- Fraction-and-offset tail of a canonical ISO-8601 string: an optional
six-digit microsecond field, then the offset tail. -/
def canonTail : List Char → Bool
  | '.' :: a :: b :: c :: d :: e :: f :: rest =>
    [a, b, c, d, e, f].all Char.isDigit && canonOffset rest
  | rest => canonOffset rest

/-- Canonical ISO-8601 datetime text `YYYY-MM-DDTHH:MM:SS[.ffffff][+HH:MM]`
with in-range date and time components: the grammar `datetime.isoformat`
prints and the subset of `datetime.fromisoformat` inputs the service
exercises. -/
def canonChars : List Char → Bool
  | y1 :: y2 :: y3 :: y4 :: '-' :: m1 :: m2 :: '-' :: d1 :: d2 :: 'T' ::
      h1 :: h2 :: ':' :: n1 :: n2 :: ':' :: s1 :: s2 :: rest =>
    [y1, y2, y3, y4, m1, m2, d1, d2, h1, h2, n1, n2, s1, s2].all Char.isDigit
      && 1 ≤ twoDigits m1 m2 && twoDigits m1 m2 ≤ 12
      && 1 ≤ twoDigits d1 d2 && twoDigits d1 d2 ≤ 31
      && twoDigits h1 h2 < 24 && twoDigits n1 n2 < 60 && twoDigits s1 s2 < 60
      && canonTail rest
  | _ => false

/-- A `datetime.datetime` value, carried as its canonical ISO-8601 text
(`isoformat` output); mirrors the values flowing through the service. -/
structure PyDateTime where
  iso : String
  canon : canonChars iso.data = true

/-- Model of `datetime.fromisoformat` on the canonical grammar: returns the
datetime denoted by the text, `ValueError` otherwise. -/
def fromisoformat (s : String) : Except PyExn PyDateTime :=
  if h : canonChars s.data = true then Except.ok ⟨s, h⟩
  else Except.error (PyExn.valueError ("Invalid isoformat string: " ++ s))

/-- `datetime.isoformat()`. -/
def PyDateTime.isoformat (d : PyDateTime) : String := d.iso

/-- `AnomalyType` enumeration (`src/src/models/anomaly.py`). -/
inductive AnomalyType where
  | stability : AnomalyType
  | performance : AnomalyType
  | cost : AnomalyType
  | resource : AnomalyType
  | unknown : AnomalyType
deriving DecidableEq

/-- String value of an `AnomalyType` member. -/
def AnomalyType.value : AnomalyType → String
  | AnomalyType.stability => "stability"
  | AnomalyType.performance => "performance"
  | AnomalyType.cost => "cost"
  | AnomalyType.resource => "resource"
  | AnomalyType.unknown => "unknown"

/-- `Severity` enumeration (`src/src/models/anomaly.py`). -/
inductive Severity where
  | critical : Severity
  | high : Severity
  | medium : Severity
  | low : Severity
  | info : Severity
deriving DecidableEq

/-- String value of a `Severity` member. -/
def Severity.value : Severity → String
  | Severity.critical => "critical"
  | Severity.high => "high"
  | Severity.medium => "medium"
  | Severity.low => "low"
  | Severity.info => "info"

/-- `AnomalyType(x)` enum construction: maps a member value to its member,
raises `ValueError` otherwise (message quoting dropped). -/
def parseAnomalyType : JValue → Except PyExn AnomalyType
  | JValue.str s =>
    if s = "stability" then Except.ok AnomalyType.stability
    else if s = "performance" then Except.ok AnomalyType.performance
    else if s = "cost" then Except.ok AnomalyType.cost
    else if s = "resource" then Except.ok AnomalyType.resource
    else if s = "unknown" then Except.ok AnomalyType.unknown
    else Except.error (PyExn.valueError (s ++ " is not a valid AnomalyType"))
  | v => Except.error (PyExn.valueError (pyTypeName v ++ " is not a valid AnomalyType"))

/-- `Severity(x)` enum construction: maps a member value to its member,
raises `ValueError` otherwise (message quoting dropped). -/
def parseSeverity : JValue → Except PyExn Severity
  | JValue.str s =>
    if s = "critical" then Except.ok Severity.critical
    else if s = "high" then Except.ok Severity.high
    else if s = "medium" then Except.ok Severity.medium
    else if s = "low" then Except.ok Severity.low
    else if s = "info" then Except.ok Severity.info
    else Except.error (PyExn.valueError (s ++ " is not a valid Severity"))
  | v => Except.error (PyExn.valueError (pyTypeName v ++ " is not a valid Severity"))

/-- The dynamic content of `Anomaly.time_window`.  The dataclass annotation
declares `Dict[str, datetime]` (`typed`), but the handler stores the raw
JSON value from the request without coercion (`raw`); both shapes can reach
`to_dict`. -/
inductive TimeWindow where
  | typed : List (String × PyDateTime) → TimeWindow
  | raw : JValue → TimeWindow

/-- The `Anomaly` dataclass (`src/src/models/anomaly.py`), with each field
holding the dynamic value the handler actually stores there: `detected_at`
is always a parsed datetime and the four numeric fields are always
`float()`-coerced, while `anomaly_id` / `metric_name` / `metric_type` /
`confidence` and the optional context fields hold the raw request values. -/
structure Anomaly where
  anomaly_id : JValue
  detected_at : PyDateTime
  metric_name : JValue
  metric_type : JValue
  current_value : Rat
  baseline_value : Rat
  deviation_sigma : Rat
  deviation_percentage : Rat
  anomaly_type : AnomalyType
  severity : Severity
  confidence : JValue
  affected_resources : JValue
  time_window : TimeWindow
  related_metrics : JValue
  metadata : JValue

/-- `v.isoformat()` on a time-window value that is a raw JSON value:
JSON never carries datetime objects, so the attribute is always missing. -/
def pyIsoformat : JValue → Except PyExn String
  | v => Except.error (PyExn.attributeError (pyTypeName v ++ " object has no attribute isoformat"))

/-- Serialize one time-window entry list via `isoformat`. -/
def twItems : List (String × JValue) → Except PyExn (List (String × JValue))
  | [] => Except.ok []
  | (k, v) :: t => do
    let s ← pyIsoformat v
    let rest ← twItems t
    pure ((k, JValue.str s) :: rest)

/-- The comprehension `{k: v.isoformat() for k, v in self.time_window.items()}`
from `Anomaly.to_dict`: over a typed mapping it prints each datetime; over a
raw value it needs `.items()` (dicts only) and then `isoformat` on each
value. -/
def twToDict : TimeWindow → Except PyExn JValue
  | TimeWindow.typed m =>
    Except.ok (JValue.obj (m.map (fun kv => (kv.1, JValue.str kv.2.iso))))
  | TimeWindow.raw (JValue.obj kvs) => do
    let items ← twItems kvs
    pure (JValue.obj items)
  | TimeWindow.raw v =>
    Except.error (PyExn.attributeError (pyTypeName v ++ " object has no attribute items"))

/-- `Anomaly.to_dict` (`src/src/models/anomaly.py`, lines 62-80): the
canonical dict serialization; the time-window comprehension is its only
fallible subexpression. -/
def Anomaly.to_dict (a : Anomaly) : Except PyExn JValue := do
  let tw ← twToDict a.time_window
  pure (JValue.obj
    [("anomaly_id", a.anomaly_id),
     ("detected_at", JValue.str a.detected_at.iso),
     ("metric_name", a.metric_name),
     ("metric_type", a.metric_type),
     ("current_value", JValue.num a.current_value),
     ("baseline_value", JValue.num a.baseline_value),
     ("deviation_sigma", JValue.num a.deviation_sigma),
     ("deviation_percentage", JValue.num a.deviation_percentage),
     ("anomaly_type", JValue.str a.anomaly_type.value),
     ("severity", JValue.str a.severity.value),
     ("confidence", a.confidence),
     ("affected_resources", a.affected_resources),
     ("time_window", tw),
     ("related_metrics", a.related_metrics),
     ("metadata", a.metadata)])

/-- The `RootCause` dataclass. -/
structure RootCause where
  primary_cause : String
  contributing_factors : List String
  confidence : Rat
  evidence : List String
  correlation_data : JValue

/-- The `Recommendation` dataclass. -/
structure Recommendation where
  priority : String
  action : String
  rationale : String
  expected_impact : String
  implementation_steps : List String
  estimated_effort : String
  risk_level : String
  cost_impact : Option String

/-- The `HumanReadableSummary` dataclass: five mandatory strings. -/
structure HumanReadableSummary where
  what_happened : String
  why_it_happened : String
  what_is_the_impact : String
  what_improvements_can_be_made : String
  estimated_benefit_if_implemented : String

/-- The `AnomalyAnalysis` dataclass: the engine's output aggregate. -/
structure AnomalyAnalysis where
  anomaly : Anomaly
  root_cause : RootCause
  recommendations : List Recommendation
  analyzed_at : PyDateTime
  analysis_duration_ms : Int
  ai_model_used : String
  historical_context : String
  trend_analysis : String
  predicted_impact : String
  summary : Option HumanReadableSummary

/-- Dict serialization of a `HumanReadableSummary` (field order of the
source dict literals). -/
def summaryToJson (s : HumanReadableSummary) : JValue :=
  JValue.obj
    [("what_happened", JValue.str s.what_happened),
     ("why_it_happened", JValue.str s.why_it_happened),
     ("what_is_the_impact", JValue.str s.what_is_the_impact),
     ("what_improvements_can_be_made", JValue.str s.what_improvements_can_be_made),
     ("estimated_benefit_if_implemented", JValue.str s.estimated_benefit_if_implemented)]

/-- Recommendation entry of `AnomalyAnalysis.to_dict` (includes
`cost_impact`, serialized as `null` when absent). -/
def recToDictJson (r : Recommendation) : JValue :=
  JValue.obj
    [("priority", JValue.str r.priority),
     ("action", JValue.str r.action),
     ("rationale", JValue.str r.rationale),
     ("expected_impact", JValue.str r.expected_impact),
     ("implementation_steps", JValue.arr (r.implementation_steps.map JValue.str)),
     ("estimated_effort", JValue.str r.estimated_effort),
     ("risk_level", JValue.str r.risk_level),
     ("cost_impact", match r.cost_impact with
        | some c => JValue.str c
        | none => JValue.null)]

/-- `AnomalyAnalysis.to_dict` (`src/src/models/anomaly.py`, lines 144-186):
serializes the aggregate; `if self.summary:` appends the `summary` block
(dataclass instances are always truthy, so this tests presence, not
emptiness). -/
def AnomalyAnalysis.to_dict (an : AnomalyAnalysis) : Except PyExn JValue := do
  let ad ← an.anomaly.to_dict
  let base :=
    [("anomaly", ad),
     ("root_cause", JValue.obj
        [("primary_cause", JValue.str an.root_cause.primary_cause),
         ("contributing_factors", JValue.arr (an.root_cause.contributing_factors.map JValue.str)),
         ("confidence", JValue.num an.root_cause.confidence),
         ("evidence", JValue.arr (an.root_cause.evidence.map JValue.str)),
         ("correlation_data", an.root_cause.correlation_data)]),
     ("recommendations", JValue.arr (an.recommendations.map recToDictJson)),
     ("analyzed_at", JValue.str an.analyzed_at.iso),
     ("analysis_duration_ms", JValue.num (an.analysis_duration_ms : Rat)),
     ("ai_model_used", JValue.str an.ai_model_used),
     ("historical_context", JValue.str an.historical_context),
     ("trend_analysis", JValue.str an.trend_analysis),
     ("predicted_impact", JValue.str an.predicted_impact)]
  match an.summary with
  | some s => pure (JValue.obj (base ++ [("summary", summaryToJson s)]))
  | none => pure (JValue.obj base)

/-- The ten required request keys (`src/main.py`, lines 93-97), in source
order. -/
def requiredFields : List String :=
  ["anomaly_id", "detected_at", "metric_name", "metric_type",
   "current_value", "baseline_value", "deviation_sigma",
   "deviation_percentage", "anomaly_type", "severity"]

/-- The comprehension `[f for f in required_fields if f not in request_json]`
over an explicit field list, propagating a membership-test exception. -/
def missingAux (req : JValue) : List String → Except PyExn (List String)
  | [] => Except.ok []
  | f :: t => do
    let b ← jsonHasKey req f
    let rest ← missingAux req t
    pure (if b then rest else f :: rest)

/-- `missing_fields` as computed by the handler (`src/main.py`, line 98). -/
def missingFieldsE (req : JValue) : Except PyExn (List String) :=
  missingAux req requiredFields

/-- `float(request_json[f])` for one numeric field. -/
def coerceNumeric (req : JValue) (f : String) : Except PyExn Rat := do
  let v ← jsonGet req f
  pyFloat v

/-- `datetime.fromisoformat(request_json['detected_at'].replace('Z', '+00:00'))`
(`src/main.py`, line 114). -/
def parseDetectedAt (req : JValue) : Except PyExn PyDateTime := do
  let v ← jsonGet req "detected_at"
  let s ← pyReplaceZ v
  fromisoformat s

/-- Construction of the `Anomaly` object by the handler (`src/main.py`,
lines 113-133): the timestamp is parsed first, then the constructor
arguments are evaluated in source order; optional fields are fetched with
`.get` and their raw values stored without further coercion. -/
def buildAnomaly (req : JValue) : Except PyExn Anomaly := do
  let detected_at ← parseDetectedAt req
  let anomaly_id ← jsonGet req "anomaly_id"
  let metric_name ← jsonGet req "metric_name"
  let metric_type ← jsonGet req "metric_type"
  let current_value ← coerceNumeric req "current_value"
  let baseline_value ← coerceNumeric req "baseline_value"
  let deviation_sigma ← coerceNumeric req "deviation_sigma"
  let deviation_percentage ← coerceNumeric req "deviation_percentage"
  let anomaly_type ← parseAnomalyType (← jsonGet req "anomaly_type")
  let severity ← parseSeverity (← jsonGet req "severity")
  let confidence ← pyDictGet req "confidence" (JValue.num 0.8)
  let affected_resources ← pyDictGet req "affected_resources" (JValue.arr [])
  let time_window ← pyDictGet req "time_window" (JValue.obj [])
  let related_metrics ← pyDictGet req "related_metrics" (JValue.obj [])
  let metadata ← pyDictGet req "metadata" (JValue.obj [])
  pure
    { anomaly_id := anomaly_id
      detected_at := detected_at
      metric_name := metric_name
      metric_type := metric_type
      current_value := current_value
      baseline_value := baseline_value
      deviation_sigma := deviation_sigma
      deviation_percentage := deviation_percentage
      anomaly_type := anomaly_type
      severity := severity
      confidence := confidence
      affected_resources := affected_resources
      time_window := TimeWindow.raw time_window
      related_metrics := related_metrics
      metadata := metadata }

/-- An HTTP-style result: response body and status code (CORS headers are
constant and omitted). -/
structure HttpResponse where
  body : JValue
  status : Nat

/-- The `{error: "Invalid request"}` envelope (`src/main.py`, lines 83-90). -/
def invalidRequestEnv : JValue :=
  JValue.obj
    [("error", JValue.str "Invalid request"),
     ("message", JValue.str "Request body must be JSON")]

/-- The missing-required-fields envelope (`src/main.py`, lines 101-109). -/
def missingEnv (m : List String) : JValue :=
  JValue.obj
    [("error", JValue.str "Missing required fields"),
     ("missing", JValue.arr (m.map JValue.str)),
     ("required", JValue.arr (requiredFields.map JValue.str))]

/-- The `{error: "Validation error"}` envelope (`src/main.py`,
lines 186-193). -/
def validationEnv (m : String) : JValue :=
  JValue.obj
    [("error", JValue.str "Validation error"),
     ("message", JValue.str m)]

/-- The `{error: "Internal server error"}` envelope (`src/main.py`,
lines 197-204). -/
def internalEnv (e : PyExn) : JValue :=
  JValue.obj
    [("error", JValue.str "Internal server error"),
     ("message", JValue.str e.msg),
     ("type", JValue.str e.name)]

/-- Recommendation entry of the success envelope (`src/main.py`,
lines 152-163; unlike `to_dict` it omits `cost_impact`). -/
def recToJson (r : Recommendation) : JValue :=
  JValue.obj
    [("priority", JValue.str r.priority),
     ("action", JValue.str r.action),
     ("rationale", JValue.str r.rationale),
     ("expected_impact", JValue.str r.expected_impact),
     ("implementation_steps", JValue.arr (r.implementation_steps.map JValue.str)),
     ("estimated_effort", JValue.str r.estimated_effort),
     ("risk_level", JValue.str r.risk_level)]

/-- `root_cause` block of the success envelope (`src/main.py`,
lines 146-151). -/
def rootCauseToJson (rc : RootCause) : JValue :=
  JValue.obj
    [("primary_cause", JValue.str rc.primary_cause),
     ("contributing_factors", JValue.arr (rc.contributing_factors.map JValue.str)),
     ("confidence", JValue.num rc.confidence),
     ("evidence", JValue.arr (rc.evidence.map JValue.str))]

/-- The success envelope `response_data` (`src/main.py`, lines 143-178):
fixed keys in source order, `saved_to_bigquery` hard-coded `True`, and the
`human_readable_summary` block appended afterwards when `analysis.summary`
is truthy (dataclass instances are always truthy, so: present). -/
def buildResponse (an : AnomalyAnalysis) : JValue :=
  let base :=
    [("success", JValue.bool true),
     ("anomaly_id", an.anomaly.anomaly_id),
     ("root_cause", rootCauseToJson an.root_cause),
     ("recommendations", JValue.arr (an.recommendations.map recToJson)),
     ("analyzed_at", JValue.str (an.analyzed_at.iso ++ "Z")),
     ("ai_model_used", JValue.str an.ai_model_used),
     ("analysis_duration_ms", JValue.num (an.analysis_duration_ms : Rat)),
     ("saved_to_bigquery", JValue.bool true)]
  match an.summary with
  | some s => JValue.obj (base ++ [("human_readable_summary", summaryToJson s)])
  | none => JValue.obj base

/-- The body of the handler's `try` block (`src/main.py`, lines 78-182),
with the analysis engine (`AnomalyAnalyzerAgent.analyze_anomaly`, an
external collaborator) abstracted as a function parameter.  Early returns
are `Except.ok`; raised exceptions are `Except.error`. -/
def handlerCore (engine : Anomaly → Except PyExn AnomalyAnalysis)
    (body : Option JValue) : Except PyExn HttpResponse :=
  match body with
  | none => Except.ok ⟨invalidRequestEnv, 400⟩
  | some req =>
    if pyFalsy req then Except.ok ⟨invalidRequestEnv, 400⟩
    else do
      let missing ← missingFieldsE req
      match missing with
      | _ :: _ => pure ⟨missingEnv missing, 400⟩
      | [] => do
        let anomaly ← buildAnomaly req
        let analysis ← engine anomaly
        pure ⟨buildResponse analysis, 200⟩

/-- The HTTP Cloud Function `analyze_anomaly` (`src/main.py`): runs the
`try` body and maps raised exceptions through the two `except` clauses —
`ValueError` to the 400 validation envelope, everything else to the 500
internal-server-error envelope. -/
def analyze_anomaly (engine : Anomaly → Except PyExn AnomalyAnalysis)
    (body : Option JValue) : HttpResponse :=
  match handlerCore engine body with
  | Except.ok r => r
  | Except.error e =>
    if e.kind = ExnKind.valueError then ⟨validationEnv e.msg, 400⟩
    else ⟨internalEnv e, 500⟩

/-- A column descriptor of a BigQuery table schema. -/
structure SchemaField where
  name : String
  field_type : String
  mode : String
deriving DecidableEq

/-- `ANOMALY_TABLE_SCHEMA` (`src/src/models/anomaly.py`, lines 222-237),
transcribed verbatim. -/
def ANOMALY_TABLE_SCHEMA : List SchemaField :=
  [⟨"anomaly_id", "STRING", "REQUIRED"⟩,
   ⟨"detected_at", "TIMESTAMP", "REQUIRED"⟩,
   ⟨"metric_name", "STRING", "REQUIRED"⟩,
   ⟨"metric_type", "STRING", "REQUIRED"⟩,
   ⟨"current_value", "FLOAT", "REQUIRED"⟩,
   ⟨"baseline_value", "FLOAT", "REQUIRED"⟩,
   ⟨"deviation_sigma", "FLOAT", "REQUIRED"⟩,
   ⟨"deviation_percentage", "FLOAT", "REQUIRED"⟩,
   ⟨"anomaly_type", "STRING", "REQUIRED"⟩,
   ⟨"severity", "STRING", "REQUIRED"⟩,
   ⟨"confidence", "FLOAT", "REQUIRED"⟩,
   ⟨"affected_resources", "JSON", "NULLABLE"⟩,
   ⟨"related_metrics", "JSON", "NULLABLE"⟩,
   ⟨"metadata", "JSON", "NULLABLE"⟩]

/-- Declared type annotation of an `Anomaly` dataclass field. -/
inductive PyAnnot where
  | str : PyAnnot
  | datetime : PyAnnot
  | float : PyAnnot
  | enumAnomalyType : PyAnnot
  | enumSeverity : PyAnnot
  | listAny : PyAnnot
  | dictStrDatetime : PyAnnot
  | dictStrFloat : PyAnnot
  | dictStrAny : PyAnnot
deriving DecidableEq

/-- The `Anomaly` dataclass fields with their annotations
(`src/src/models/anomaly.py`, lines 30-60), in declaration order. -/
def anomalyDataclassFields : List (String × PyAnnot) :=
  [("anomaly_id", PyAnnot.str),
   ("detected_at", PyAnnot.datetime),
   ("metric_name", PyAnnot.str),
   ("metric_type", PyAnnot.str),
   ("current_value", PyAnnot.float),
   ("baseline_value", PyAnnot.float),
   ("deviation_sigma", PyAnnot.float),
   ("deviation_percentage", PyAnnot.float),
   ("anomaly_type", PyAnnot.enumAnomalyType),
   ("severity", PyAnnot.enumSeverity),
   ("confidence", PyAnnot.float),
   ("affected_resources", PyAnnot.listAny),
   ("time_window", PyAnnot.dictStrDatetime),
   ("related_metrics", PyAnnot.dictStrFloat),
   ("metadata", PyAnnot.dictStrAny)]

/-- Modelled from the spec (section 6): the column primitive type each
dataclass field must persist as — strings and enum values as `STRING`,
timestamps as `TIMESTAMP`, floats as double-precision `FLOAT`, nested
sequences/mappings as free-form `JSON` columns. -/
def specColumnType : PyAnnot → String
  | PyAnnot.str => "STRING"
  | PyAnnot.datetime => "TIMESTAMP"
  | PyAnnot.float => "FLOAT"
  | PyAnnot.enumAnomalyType => "STRING"
  | PyAnnot.enumSeverity => "STRING"
  | PyAnnot.listAny => "JSON"
  | PyAnnot.dictStrDatetime => "JSON"
  | PyAnnot.dictStrFloat => "JSON"
  | PyAnnot.dictStrAny => "JSON"

/-- Key-presence test on a serialized dict (statement-level helper). -/
def objHasKey : JValue → String → Bool
  | JValue.obj kvs, k => kvs.any (fun kv => kv.1 = k)
  | _, _ => false

/-- Whether an `Except` computation succeeded (statement-level helper). -/
def isOkE {α : Type} : Except PyExn α → Bool
  | Except.ok _ => true
  | Except.error _ => false

/-- The section-8 literal request body of the spec. -/
def req8 : JValue := JValue.obj
  [("anomaly_id", JValue.str "anom_1"),
   ("detected_at", JValue.str "2024-12-16T14:05:30Z"),
   ("metric_name", JValue.str "error_rate"),
   ("metric_type", JValue.str "error_rate"),
   ("current_value", JValue.num 15.5),
   ("baseline_value", JValue.num 2.3),
   ("deviation_sigma", JValue.num 5.2),
   ("deviation_percentage", JValue.num 574.0),
   ("anomaly_type", JValue.str "stability"),
   ("severity", JValue.str "high")]

/-- The section-8 literal request with `severity` replaced by the
non-member value `extreme`. -/
def req8extreme : JValue := JValue.obj
  [("anomaly_id", JValue.str "anom_1"),
   ("detected_at", JValue.str "2024-12-16T14:05:30Z"),
   ("metric_name", JValue.str "error_rate"),
   ("metric_type", JValue.str "error_rate"),
   ("current_value", JValue.num 15.5),
   ("baseline_value", JValue.num 2.3),
   ("deviation_sigma", JValue.num 5.2),
   ("deviation_percentage", JValue.num 574.0),
   ("anomaly_type", JValue.str "stability"),
   ("severity", JValue.str "extreme")]

/-- The section-8 literal request extended with a non-empty `time_window`
mapping of ISO-8601 boundary timestamps. -/
def reqTimeWindow : JValue := JValue.obj
  [("anomaly_id", JValue.str "anom_1"),
   ("detected_at", JValue.str "2024-12-16T14:05:30Z"),
   ("metric_name", JValue.str "error_rate"),
   ("metric_type", JValue.str "error_rate"),
   ("current_value", JValue.num 15.5),
   ("baseline_value", JValue.num 2.3),
   ("deviation_sigma", JValue.num 5.2),
   ("deviation_percentage", JValue.num 574.0),
   ("anomaly_type", JValue.str "stability"),
   ("severity", JValue.str "high"),
   ("time_window", JValue.obj [("start", JValue.str "2024-12-16T14:00:00Z")])]

/-- The section-8 literal request with `current_value` replaced by `null`. -/
def reqNullCv : JValue := JValue.obj
  [("anomaly_id", JValue.str "anom_1"),
   ("detected_at", JValue.str "2024-12-16T14:05:30Z"),
   ("metric_name", JValue.str "error_rate"),
   ("metric_type", JValue.str "error_rate"),
   ("current_value", JValue.null),
   ("baseline_value", JValue.num 2.3),
   ("deviation_sigma", JValue.num 5.2),
   ("deviation_percentage", JValue.num 574.0),
   ("anomaly_type", JValue.str "stability"),
   ("severity", JValue.str "high")]

/-- The section-8 literal request with `current_value` replaced by the
non-numeric string `abc`. -/
def reqBadCv : JValue := JValue.obj
  [("anomaly_id", JValue.str "anom_1"),
   ("detected_at", JValue.str "2024-12-16T14:05:30Z"),
   ("metric_name", JValue.str "error_rate"),
   ("metric_type", JValue.str "error_rate"),
   ("current_value", JValue.str "abc"),
   ("baseline_value", JValue.num 2.3),
   ("deviation_sigma", JValue.num 5.2),
   ("deviation_percentage", JValue.num 574.0),
   ("anomaly_type", JValue.str "stability"),
   ("severity", JValue.str "high")]

/-- An engine behaviour raising `ValueError("boom")`. -/
def engineRaisingValueError : Anomaly → Except PyExn AnomalyAnalysis :=
  fun _ => Except.error ⟨ExnKind.valueError, "ValueError", "boom"⟩

/-- An engine behaviour raising `RuntimeError("boom")`. -/
def engineRaisingRuntimeError : Anomaly → Except PyExn AnomalyAnalysis :=
  fun _ => Except.error ⟨ExnKind.other, "RuntimeError", "boom"⟩

/-- A concrete datetime value: the section-8 timestamp after the handler's
`Z` normalization. -/
def dt0 : PyDateTime := ⟨"2024-12-16T14:05:30+00:00", by decide⟩

/-- The `Anomaly` the validator produces from the section-8 literal. -/
def anomaly0 : Anomaly :=
  { anomaly_id := JValue.str "anom_1"
    detected_at := dt0
    metric_name := JValue.str "error_rate"
    metric_type := JValue.str "error_rate"
    current_value := 15.5
    baseline_value := 2.3
    deviation_sigma := 5.2
    deviation_percentage := 574.0
    anomaly_type := AnomalyType.stability
    severity := Severity.high
    confidence := JValue.num 0.8
    affected_resources := JValue.arr []
    time_window := TimeWindow.raw (JValue.obj [])
    related_metrics := JValue.obj []
    metadata := JValue.obj [] }

/-- A concrete root cause. -/
def rc0 : RootCause :=
  { primary_cause := "cause"
    contributing_factors := []
    confidence := 0.9
    evidence := []
    correlation_data := JValue.obj [] }

/-- A concrete engine result whose summary is present but has all five
strings empty. -/
def analysis0 : AnomalyAnalysis :=
  { anomaly := anomaly0
    root_cause := rc0
    recommendations := []
    analyzed_at := dt0
    analysis_duration_ms := 5
    ai_model_used := "gemini"
    historical_context := ""
    trend_analysis := ""
    predicted_impact := ""
    summary := some ⟨"", "", "", "", ""⟩ }

/-- An engine behaviour returning `analysis0`. -/
def engineReturningAnalysis0 : Anomaly → Except PyExn AnomalyAnalysis :=
  fun _ => Except.ok analysis0

/-- The member values of `AnomalyType`. -/
def anomalyTypeValues : List String :=
  ["stability", "performance", "cost", "resource", "unknown"]

/-- The member values of `Severity`. -/
def severityValues : List String :=
  ["critical", "high", "medium", "low", "info"]

/-- The dict `AnomalyAnalysis.to_dict` produces for `analysis0`
(the serialization succeeds, so the fallback branch is never taken). -/
def dict0 : JValue :=
  match AnomalyAnalysis.to_dict analysis0 with
  | Except.ok d => d
  | Except.error _ => JValue.null

/-- The section-8 literal request extended with an explicit `confidence`
of 1.5, outside the documented [0, 1] range. -/
def reqConf15 : JValue := JValue.obj
  [("anomaly_id", JValue.str "anom_1"),
   ("detected_at", JValue.str "2024-12-16T14:05:30Z"),
   ("metric_name", JValue.str "error_rate"),
   ("metric_type", JValue.str "error_rate"),
   ("current_value", JValue.num 15.5),
   ("baseline_value", JValue.num 2.3),
   ("deviation_sigma", JValue.num 5.2),
   ("deviation_percentage", JValue.num 574.0),
   ("anomaly_type", JValue.str "stability"),
   ("severity", JValue.str "high"),
   ("confidence", JValue.num 1.5)]

/-- The `Anomaly` the validator produces from `reqConf15` (validation
succeeds, so the fallback branch is never taken). -/
def anomalyConf15 : Anomaly :=
  match buildAnomaly reqConf15 with
  | Except.ok a => a
  | Except.error _ => anomaly0

@[simp] theorem okBind {α β : Type} (a : α) (f : α → Except PyExn β) :
    (Except.ok a : Except PyExn α) >>= f = f a := rfl

@[simp] theorem errBind {α β : Type} (e : PyExn) (f : α → Except PyExn β) :
    (Except.error e : Except PyExn α) >>= f = Except.error e := rfl

@[simp] theorem pureEqOk {α : Type} (a : α) :
    (pure a : Except PyExn α) = Except.ok a := rfl

theorem PyDateTime.ext {a b : PyDateTime} (h : a.iso = b.iso) : a = b := by
  cases a; cases b; simp only at h; subst h; rfl

theorem fromisoformat_iso (d : PyDateTime) : fromisoformat d.iso = Except.ok d := by
  unfold fromisoformat
  rw [dif_pos d.canon]

theorem parseAnomalyType_value (t : AnomalyType) :
    parseAnomalyType (JValue.str t.value) = Except.ok t := by
  cases t <;> rfl

theorem parseSeverity_value (s : Severity) :
    parseSeverity (JValue.str s.value) = Except.ok s := by
  cases s <;> rfl

theorem replaceZChars_cons_ne (c : Char) (t : List Char) (h : ¬c = 'Z') :
    replaceZChars (c :: t) = c :: replaceZChars t := by
  simp [replaceZChars, h]

theorem digit_ne_Z {c : Char} (h : c.isDigit = true) : ¬c = 'Z' := by
  intro he
  subst he
  rw [show ('Z').isDigit = false from rfl] at h
  exact Bool.noConfusion h

theorem canonOffset_replaceZ (cs : List Char) (h : canonOffset cs = true) :
    replaceZChars cs = cs := by
  unfold canonOffset at h
  split at h
  · rfl
  · rename_i sg h1 h2 m1 m2
    simp only [Bool.and_eq_true, Bool.or_eq_true, List.all_cons, List.all_nil, Bool.and_true,
      decide_eq_true_eq] at h
    obtain ⟨⟨⟨hsg, hd1, hd2, hd3, hd4⟩, _⟩, _⟩ := h
    have n0 : ¬sg = 'Z' := by rcases hsg with h | h <;> subst h <;> decide
    rw [replaceZChars_cons_ne _ _ n0,
      replaceZChars_cons_ne _ _ (digit_ne_Z hd1),
      replaceZChars_cons_ne _ _ (digit_ne_Z hd2),
      replaceZChars_cons_ne _ _ (by decide : ':' ≠ 'Z'),
      replaceZChars_cons_ne _ _ (digit_ne_Z hd3),
      replaceZChars_cons_ne _ _ (digit_ne_Z hd4)]
    rfl
  · exact Bool.noConfusion h

theorem canonTail_replaceZ (cs : List Char) (h : canonTail cs = true) :
    replaceZChars cs = cs := by
  unfold canonTail at h
  split at h
  · rename_i a b c d e f rest
    simp only [Bool.and_eq_true, List.all_cons, List.all_nil, Bool.and_true,
      decide_eq_true_eq] at h
    obtain ⟨⟨ha, hb, hc, hd, he, hf⟩, hoff⟩ := h
    rw [replaceZChars_cons_ne _ _ (by decide : '.' ≠ 'Z'),
      replaceZChars_cons_ne _ _ (digit_ne_Z ha),
      replaceZChars_cons_ne _ _ (digit_ne_Z hb),
      replaceZChars_cons_ne _ _ (digit_ne_Z hc),
      replaceZChars_cons_ne _ _ (digit_ne_Z hd),
      replaceZChars_cons_ne _ _ (digit_ne_Z he),
      replaceZChars_cons_ne _ _ (digit_ne_Z hf),
      canonOffset_replaceZ _ hoff]
  · exact canonOffset_replaceZ _ h

theorem canonChars_replaceZ (cs : List Char) (h : canonChars cs = true) :
    replaceZChars cs = cs := by
  unfold canonChars at h
  split at h
  · rename_i y1 y2 y3 y4 m1 m2 d1 d2 h1 h2 n1 n2 s1 s2 rest
    simp only [Bool.and_eq_true, List.all_cons, List.all_nil, Bool.and_true,
      decide_eq_true_eq] at h
    obtain ⟨⟨⟨⟨⟨⟨⟨⟨hdig, _⟩, _⟩, _⟩, _⟩, _⟩, _⟩, _⟩, htail⟩ := h
    obtain ⟨e1, e2, e3, e4, e5, e6, e7, e8, e9, e10, e11, e12, e13, e14⟩ := hdig
    rw [replaceZChars_cons_ne _ _ (digit_ne_Z e1),
      replaceZChars_cons_ne _ _ (digit_ne_Z e2),
      replaceZChars_cons_ne _ _ (digit_ne_Z e3),
      replaceZChars_cons_ne _ _ (digit_ne_Z e4),
      replaceZChars_cons_ne _ _ (by decide : '-' ≠ 'Z'),
      replaceZChars_cons_ne _ _ (digit_ne_Z e5),
      replaceZChars_cons_ne _ _ (digit_ne_Z e6),
      replaceZChars_cons_ne _ _ (by decide : '-' ≠ 'Z'),
      replaceZChars_cons_ne _ _ (digit_ne_Z e7),
      replaceZChars_cons_ne _ _ (digit_ne_Z e8),
      replaceZChars_cons_ne _ _ (by decide : 'T' ≠ 'Z'),
      replaceZChars_cons_ne _ _ (digit_ne_Z e9),
      replaceZChars_cons_ne _ _ (digit_ne_Z e10),
      replaceZChars_cons_ne _ _ (by decide : ':' ≠ 'Z'),
      replaceZChars_cons_ne _ _ (digit_ne_Z e11),
      replaceZChars_cons_ne _ _ (digit_ne_Z e12),
      replaceZChars_cons_ne _ _ (by decide : ':' ≠ 'Z'),
      replaceZChars_cons_ne _ _ (digit_ne_Z e13),
      replaceZChars_cons_ne _ _ (digit_ne_Z e14),
      canonTail_replaceZ _ htail]
  · exact Bool.noConfusion h

theorem replaceZ_of_canon (s : String) (h : canonChars s.data = true) :
    replaceZ s = s := by
  unfold replaceZ
  rw [canonChars_replaceZ s.data h]

theorem missingAux_obj (kvs : List (String × JValue)) (l : List String) :
    missingAux (JValue.obj kvs) l
      = Except.ok (l.filter (fun f => !kvs.any (fun kv => kv.1 = f))) := by
  induction l with
  | nil => rfl
  | cons f t ih =>
    simp only [missingAux, jsonHasKey, okBind, ih, pureEqOk, List.filter_cons]
    cases hany : kvs.any (fun kv => kv.1 = f) <;> simp [hany]

theorem missingFieldsE_obj (kvs : List (String × JValue)) :
    missingFieldsE (JValue.obj kvs)
      = Except.ok (requiredFields.filter (fun f => !kvs.any (fun kv => kv.1 = f))) :=
  missingAux_obj kvs requiredFields

theorem analyze_missing (engine : Anomaly → Except PyExn AnomalyAnalysis) (req : JValue)
    (f : String) (t : List String)
    (h1 : pyFalsy req = false) (h2 : missingFieldsE req = Except.ok (f :: t)) :
    analyze_anomaly engine (some req) = ⟨missingEnv (f :: t), 400⟩ := by
  simp [analyze_anomaly, handlerCore, h1, h2]

theorem analyze_of_buildAnomaly_error (engine : Anomaly → Except PyExn AnomalyAnalysis)
    (req : JValue) (e : PyExn)
    (h1 : pyFalsy req = false) (h2 : missingFieldsE req = Except.ok [])
    (h3 : buildAnomaly req = Except.error e) :
    analyze_anomaly engine (some req)
      = if e.kind = ExnKind.valueError then ⟨validationEnv e.msg, 400⟩
        else ⟨internalEnv e, 500⟩ := by
  simp [analyze_anomaly, handlerCore, h1, h2, h3]

theorem analyze_of_engine_error (engine : Anomaly → Except PyExn AnomalyAnalysis)
    (req : JValue) (a : Anomaly) (e : PyExn)
    (h1 : pyFalsy req = false) (h2 : missingFieldsE req = Except.ok [])
    (h3 : buildAnomaly req = Except.ok a) (h4 : engine a = Except.error e) :
    analyze_anomaly engine (some req)
      = if e.kind = ExnKind.valueError then ⟨validationEnv e.msg, 400⟩
        else ⟨internalEnv e, 500⟩ := by
  simp [analyze_anomaly, handlerCore, h1, h2, h3, h4]

theorem analyze_of_engine_ok (engine : Anomaly → Except PyExn AnomalyAnalysis)
    (req : JValue) (a : Anomaly) (an : AnomalyAnalysis)
    (h1 : pyFalsy req = false) (h2 : missingFieldsE req = Except.ok [])
    (h3 : buildAnomaly req = Except.ok a) (h4 : engine a = Except.ok an) :
    analyze_anomaly engine (some req) = ⟨buildResponse an, 200⟩ := by
  simp [analyze_anomaly, handlerCore, h1, h2, h3, h4]

/-- C1 (counterexample): the empty JSON object body is missing all ten
required keys, yet the handler returns the `Invalid request` envelope —
which has no `missing` sequence at all — because `if not request_json:`
treats the empty dict as falsy. -/
theorem c1_counterexample_empty_object :
    analyze_anomaly engineRaisingRuntimeError (some (JValue.obj []))
        = ⟨invalidRequestEnv, 400⟩ ∧
    missingFieldsE (JValue.obj []) = Except.ok requiredFields ∧
    objHasKey invalidRequestEnv "missing" = false :=
  ⟨rfl, rfl, rfl⟩

/-- C1 (amended): for every parsed non-empty (truthy) JSON object request
body missing one or more of the ten required keys, the handler returns the
client error envelope whose `missing` sequence is exactly the set of absent
required keys and whose `required` sequence is the full required set, and
the analysis engine is not invoked (the response is independent of the
engine's behaviour); the empty JSON object is instead rejected as
`Invalid request`. -/
theorem c1_missing_fields_exact (engine₁ engine₂ : Anomaly → Except PyExn AnomalyAnalysis)
    (kvs : List (String × JValue)) (m : List String)
    (hne : pyFalsy (JValue.obj kvs) = false)
    (hm : missingFieldsE (JValue.obj kvs) = Except.ok m) (hnil : ¬m = []) :
    analyze_anomaly engine₁ (some (JValue.obj kvs)) = ⟨missingEnv m, 400⟩ ∧
    analyze_anomaly engine₁ (some (JValue.obj kvs))
      = analyze_anomaly engine₂ (some (JValue.obj kvs)) ∧
    ∀ g, g ∈ m ↔ (g ∈ requiredFields ∧ jsonHasKey (JValue.obj kvs) g = Except.ok false) := by
  cases m with
  | nil => exact absurd rfl hnil
  | cons f t =>
    refine ⟨analyze_missing engine₁ _ f t hne hm, ?_, ?_⟩
    · rw [analyze_missing engine₁ _ f t hne hm, analyze_missing engine₂ _ f t hne hm]
    · intro g
      have hchar := missingFieldsE_obj kvs
      rw [hm] at hchar
      have hlist : f :: t
          = requiredFields.filter (fun x => !kvs.any (fun kv => kv.1 = x)) :=
        Except.ok.inj hchar
      rw [hlist, List.mem_filter, jsonHasKey]
      simp

/-- C1 (witness for the amended theorem): a concrete body carrying only
`anomaly_id` yields the envelope listing exactly the other nine required
fields, whatever the engine does. -/
theorem c1_missing_fields_exact_witness :
    analyze_anomaly engineRaisingRuntimeError
        (some (JValue.obj [("anomaly_id", JValue.str "a")]))
      = ⟨missingEnv ["detected_at", "metric_name", "metric_type", "current_value",
          "baseline_value", "deviation_sigma", "deviation_percentage",
          "anomaly_type", "severity"], 400⟩ ∧
    analyze_anomaly engineRaisingRuntimeError
        (some (JValue.obj [("anomaly_id", JValue.str "a")]))
      = analyze_anomaly engineRaisingValueError
        (some (JValue.obj [("anomaly_id", JValue.str "a")])) := by
  have h := c1_missing_fields_exact engineRaisingRuntimeError engineRaisingValueError
    [("anomaly_id", JValue.str "a")]
    ["detected_at", "metric_name", "metric_type", "current_value",
     "baseline_value", "deviation_sigma", "deviation_percentage",
     "anomaly_type", "severity"]
    rfl rfl (by decide)
  exact ⟨h.1, h.2.1⟩

/-- C7 (counterexample): the `Anomaly` dataclass has the field
`time_window`, but no column of `ANOMALY_TABLE_SCHEMA` is named
`time_window`, so the schema does not cover every field of the record. -/
theorem c7_counterexample_no_time_window_column :
    ("time_window", PyAnnot.dictStrDatetime) ∈ anomalyDataclassFields ∧
    ∀ c ∈ ANOMALY_TABLE_SCHEMA, ¬c.name = "time_window" := by
  decide

/-- C7 (amended): for every `Anomaly` dataclass field except `time_window`
— which has no column — the schema contains a column whose name and
primitive type match the field exactly (floats as double-precision `FLOAT`,
enums as `STRING`, nested sequences/mappings as `JSON`), and every schema
column corresponds to a dataclass field, so there are no extra columns. -/
theorem c7_schema_matches_except_time_window :
    (∀ fa ∈ anomalyDataclassFields, ¬fa.1 = "time_window" →
      ∃ c ∈ ANOMALY_TABLE_SCHEMA, c.name = fa.1 ∧ c.field_type = specColumnType fa.2) ∧
    (∀ c ∈ ANOMALY_TABLE_SCHEMA, ∃ fa ∈ anomalyDataclassFields,
      fa.1 = c.name ∧ specColumnType fa.2 = c.field_type) := by
  decide

/-- C7 (witness): the `detected_at` field concretely matches its
`TIMESTAMP` column. -/
theorem c7_schema_matches_witness :
    ∃ c ∈ ANOMALY_TABLE_SCHEMA,
      c.name = "detected_at" ∧ c.field_type = specColumnType PyAnnot.datetime :=
  c7_schema_matches_except_time_window.1 ("detected_at", PyAnnot.datetime)
    (by decide) (by decide)

/-- C8: the section-8 literal extended with a non-empty `time_window` of
ISO-8601 text is accepted by the validator, but the timestamp text is
stored uncoerced, so `Anomaly.to_dict` fails on the stored value with
`AttributeError` when it calls `isoformat` on a string — the coercion the
spec requires does not happen. -/
theorem c8_time_window_left_uncoerced :
    isOkE (buildAnomaly reqTimeWindow) = true ∧
    (buildAnomaly reqTimeWindow).bind Anomaly.to_dict
      = Except.error (PyExn.attributeError "str object has no attribute isoformat") :=
  ⟨rfl, rfl⟩

theorem subChars_append_left (p s t : List Char) (h : subChars p t = true) :
    subChars p (s ++ t) = true := by
  induction s with
  | nil => exact h
  | cons c cs ih =>
    show subChars p (c :: (cs ++ t)) = true
    unfold subChars
    rw [ih]
    exact Bool.or_true _

theorem buildAnomaly_error_cv (kvs : List (String × JValue)) (d : PyDateTime)
    (vid vmn vmt v : JValue) (e : PyExn)
    (hdt : parseDetectedAt (JValue.obj kvs) = Except.ok d)
    (hid : lookupKv kvs "anomaly_id" = some vid)
    (hmn : lookupKv kvs "metric_name" = some vmn)
    (hmt : lookupKv kvs "metric_type" = some vmt)
    (hcv : lookupKv kvs "current_value" = some v)
    (hf : pyFloat v = Except.error e) :
    buildAnomaly (JValue.obj kvs) = Except.error e := by
  simp [buildAnomaly, coerceNumeric, jsonGet, hdt, hid, hmn, hmt, hcv, hf]

theorem buildAnomaly_error_ty (kvs : List (String × JValue)) (d : PyDateTime)
    (vid vmn vmt : JValue) (cv bv ds dp : Rat) (t : String)
    (hdt : parseDetectedAt (JValue.obj kvs) = Except.ok d)
    (hid : lookupKv kvs "anomaly_id" = some vid)
    (hmn : lookupKv kvs "metric_name" = some vmn)
    (hmt : lookupKv kvs "metric_type" = some vmt)
    (hcv : coerceNumeric (JValue.obj kvs) "current_value" = Except.ok cv)
    (hbv : coerceNumeric (JValue.obj kvs) "baseline_value" = Except.ok bv)
    (hds : coerceNumeric (JValue.obj kvs) "deviation_sigma" = Except.ok ds)
    (hdp : coerceNumeric (JValue.obj kvs) "deviation_percentage" = Except.ok dp)
    (hty : lookupKv kvs "anomaly_type" = some (JValue.str t))
    (hbad : ¬t ∈ anomalyTypeValues) :
    buildAnomaly (JValue.obj kvs)
      = Except.error (PyExn.valueError (t ++ " is not a valid AnomalyType")) := by
  simp only [anomalyTypeValues, List.mem_cons, List.not_mem_nil, or_false, not_or] at hbad
  obtain ⟨n1, n2, n3, n4, n5⟩ := hbad
  simp [buildAnomaly, jsonGet, hdt, hid, hmn, hmt, hcv, hbv, hds, hdp, hty,
    parseAnomalyType, n1, n2, n3, n4, n5]

theorem buildAnomaly_error_sv (kvs : List (String × JValue)) (d : PyDateTime)
    (vid vmn vmt vty : JValue) (cv bv ds dp : Rat) (ty : AnomalyType) (s : String)
    (hdt : parseDetectedAt (JValue.obj kvs) = Except.ok d)
    (hid : lookupKv kvs "anomaly_id" = some vid)
    (hmn : lookupKv kvs "metric_name" = some vmn)
    (hmt : lookupKv kvs "metric_type" = some vmt)
    (hcv : coerceNumeric (JValue.obj kvs) "current_value" = Except.ok cv)
    (hbv : coerceNumeric (JValue.obj kvs) "baseline_value" = Except.ok bv)
    (hds : coerceNumeric (JValue.obj kvs) "deviation_sigma" = Except.ok ds)
    (hdp : coerceNumeric (JValue.obj kvs) "deviation_percentage" = Except.ok dp)
    (hty : lookupKv kvs "anomaly_type" = some vty)
    (hpt : parseAnomalyType vty = Except.ok ty)
    (hsv : lookupKv kvs "severity" = some (JValue.str s))
    (hbad : ¬s ∈ severityValues) :
    buildAnomaly (JValue.obj kvs)
      = Except.error (PyExn.valueError (s ++ " is not a valid Severity")) := by
  simp only [severityValues, List.mem_cons, List.not_mem_nil, or_false, not_or] at hbad
  obtain ⟨n1, n2, n3, n4, n5⟩ := hbad
  simp [buildAnomaly, jsonGet, hdt, hid, hmn, hmt, hcv, hbv, hds, hdp, hty, hpt, hsv,
    parseSeverity, n1, n2, n3, n4, n5]

/-- C2: for a request passing the earlier validation stages, an
`anomaly_type` string outside its enumeration makes `AnomalyType(...)`
raise `ValueError`, and, when `anomaly_type` is valid, a `severity` string
outside its enumeration makes `Severity(...)` raise `ValueError`; either
way the handler returns the 400 `Validation error` envelope whose message
carries the invalid value and names the offending enumeration
(`AnomalyType` / `Severity`), and no `Anomaly` is constructed with a
defaulted member. -/
theorem c2_invalid_enum_rejected (engine : Anomaly → Except PyExn AnomalyAnalysis)
    (kvs : List (String × JValue)) (d : PyDateTime)
    (vid vmn vmt : JValue) (cv bv ds dp : Rat)
    (h1 : pyFalsy (JValue.obj kvs) = false)
    (h2 : missingFieldsE (JValue.obj kvs) = Except.ok [])
    (hdt : parseDetectedAt (JValue.obj kvs) = Except.ok d)
    (hid : lookupKv kvs "anomaly_id" = some vid)
    (hmn : lookupKv kvs "metric_name" = some vmn)
    (hmt : lookupKv kvs "metric_type" = some vmt)
    (hcv : coerceNumeric (JValue.obj kvs) "current_value" = Except.ok cv)
    (hbv : coerceNumeric (JValue.obj kvs) "baseline_value" = Except.ok bv)
    (hds : coerceNumeric (JValue.obj kvs) "deviation_sigma" = Except.ok ds)
    (hdp : coerceNumeric (JValue.obj kvs) "deviation_percentage" = Except.ok dp) :
    (∀ t, lookupKv kvs "anomaly_type" = some (JValue.str t) → ¬t ∈ anomalyTypeValues →
      analyze_anomaly engine (some (JValue.obj kvs))
        = ⟨validationEnv (t ++ " is not a valid AnomalyType"), 400⟩ ∧
      subChars "AnomalyType".data (t ++ " is not a valid AnomalyType").data = true) ∧
    (∀ vty ty s, lookupKv kvs "anomaly_type" = some vty →
      parseAnomalyType vty = Except.ok ty →
      lookupKv kvs "severity" = some (JValue.str s) → ¬s ∈ severityValues →
      analyze_anomaly engine (some (JValue.obj kvs))
        = ⟨validationEnv (s ++ " is not a valid Severity"), 400⟩ ∧
      subChars "Severity".data (s ++ " is not a valid Severity").data = true) := by
  constructor
  · intro t hty hbad
    have hb := buildAnomaly_error_ty kvs d vid vmn vmt cv bv ds dp t
      hdt hid hmn hmt hcv hbv hds hdp hty hbad
    refine ⟨?_, ?_⟩
    · rw [analyze_of_buildAnomaly_error engine _ _ h1 h2 hb]
      rfl
    · rw [String.data_append]
      exact subChars_append_left _ _ _ (by decide)
  · intro vty ty s hty hpt hsv hbad
    have hb := buildAnomaly_error_sv kvs d vid vmn vmt vty cv bv ds dp ty s
      hdt hid hmn hmt hcv hbv hds hdp hty hpt hsv hbad
    refine ⟨?_, ?_⟩
    · rw [analyze_of_buildAnomaly_error engine _ _ h1 h2 hb]
      rfl
    · rw [String.data_append]
      exact subChars_append_left _ _ _ (by decide)

/-- C2 (witness): the section-8 literal with `severity` set to `extreme`
concretely yields the 400 `Validation error` envelope whose message names
`Severity` together with the invalid value. -/
theorem c2_invalid_enum_rejected_witness :
    analyze_anomaly engineRaisingRuntimeError (some req8extreme)
      = ⟨validationEnv "extreme is not a valid Severity", 400⟩ ∧
    subChars "Severity".data ("extreme is not a valid Severity").data = true := by
  have h := (c2_invalid_enum_rejected engineRaisingRuntimeError
    [("anomaly_id", JValue.str "anom_1"),
     ("detected_at", JValue.str "2024-12-16T14:05:30Z"),
     ("metric_name", JValue.str "error_rate"),
     ("metric_type", JValue.str "error_rate"),
     ("current_value", JValue.num 15.5),
     ("baseline_value", JValue.num 2.3),
     ("deviation_sigma", JValue.num 5.2),
     ("deviation_percentage", JValue.num 574.0),
     ("anomaly_type", JValue.str "stability"),
     ("severity", JValue.str "extreme")]
    dt0 (JValue.str "anom_1") (JValue.str "error_rate") (JValue.str "error_rate")
    15.5 2.3 5.2 574.0
    rfl rfl rfl rfl rfl rfl rfl rfl rfl rfl).2
    (JValue.str "stability") AnomalyType.stability "extreme" rfl rfl rfl (by decide)
  exact h

/-- C3 (counterexample): for the well-formed section-8 request and an
engine raising `ValueError("boom")`, the handler returns the 400
`Validation error` client envelope — not the `Internal server error`
server envelope the claim requires for every engine exception class —
because the engine call sits inside the same `try` whose first clause
catches `ValueError`. -/
theorem c3_counterexample_engine_valueerror :
    analyze_anomaly engineRaisingValueError (some req8) = ⟨validationEnv "boom", 400⟩ ∧
    jsonGetOpt (analyze_anomaly engineRaisingValueError (some req8)).body "error"
      = some (JValue.str "Validation error") ∧
    ¬(analyze_anomaly engineRaisingValueError (some req8)).status = 500 := by
  refine ⟨rfl, rfl, ?_⟩
  rw [show analyze_anomaly engineRaisingValueError (some req8)
      = ⟨validationEnv "boom", 400⟩ from rfl]
  decide

/-- C3 (amended): for every well-formed input (truthy body, no missing
fields, `Anomaly` construction succeeding) whose engine invocation raises,
the handler returns the `{error: "Internal server error", message, type}`
500 envelope whenever the raised exception is not a `ValueError`; an engine
`ValueError` is instead reported as a 400 validation error; in all cases no
2xx/success response is produced. -/
theorem c3_engine_failure_is_server_error (engine : Anomaly → Except PyExn AnomalyAnalysis)
    (req : JValue) (a : Anomaly) (e : PyExn)
    (h1 : pyFalsy req = false) (h2 : missingFieldsE req = Except.ok [])
    (h3 : buildAnomaly req = Except.ok a) (h4 : engine a = Except.error e) :
    (¬e.kind = ExnKind.valueError →
      analyze_anomaly engine (some req) = ⟨internalEnv e, 500⟩ ∧
      jsonGetOpt (internalEnv e) "error" = some (JValue.str "Internal server error") ∧
      objHasKey (internalEnv e) "message" = true ∧
      objHasKey (internalEnv e) "type" = true) ∧
    ¬(analyze_anomaly engine (some req)).status = 200 := by
  have h := analyze_of_engine_error engine req a e h1 h2 h3 h4
  constructor
  · intro hk
    rw [h, if_neg hk]
    exact ⟨rfl, rfl, rfl, rfl⟩
  · rw [h]
    by_cases hk : e.kind = ExnKind.valueError <;> simp [hk]

/-- C3 (witness for the amended theorem): the section-8 request with an
engine raising `RuntimeError("boom")` concretely yields the 500
`Internal server error` envelope carrying the message and the exception
class name. -/
theorem c3_engine_failure_is_server_error_witness :
    analyze_anomaly engineRaisingRuntimeError (some req8)
      = ⟨internalEnv ⟨ExnKind.other, "RuntimeError", "boom"⟩, 500⟩ ∧
    ¬(analyze_anomaly engineRaisingRuntimeError (some req8)).status = 200 := by
  have h := c3_engine_failure_is_server_error engineRaisingRuntimeError req8 anomaly0
    ⟨ExnKind.other, "RuntimeError", "boom"⟩ rfl rfl rfl rfl
  exact ⟨(h.1 (by decide)).1, h.2⟩

/-- C4 (counterexample): the section-8 request with `current_value` set to
`null` makes `float(None)` raise `TypeError`, which the handler's generic
clause converts to the 500 `Internal server error` envelope — so a numeric
coercion failure can produce an internal-server-error response, and its
message is CPython's, which does not name the offending field. -/
theorem c4_counterexample_null_numeric :
    analyze_anomaly engineRaisingRuntimeError (some reqNullCv)
      = ⟨internalEnv (PyExn.typeError
          "float() argument must be a string or a real number, not NoneType"), 500⟩ ∧
    jsonGetOpt (analyze_anomaly engineRaisingRuntimeError (some reqNullCv)).body "error"
      = some (JValue.str "Internal server error") :=
  ⟨rfl, rfl⟩

/-- C4 (amended): a numeric-field coercion failure is reported according to
the exception `float()` raises: when the raised exception is a `ValueError`
(the non-numeric-string case) the handler returns the 400
`{error: "Validation error", message}` envelope carrying CPython's
coercion message — which does not name the offending field — and when it is
any other exception (`TypeError`, the null / list case) the handler returns
the 500 internal-server-error envelope; concretely, for the first numeric
field `current_value`, a non-parseable string yields the 400 validation
envelope and `null` yields the 500 envelope. -/
theorem c4_numeric_coercion_failures :
    (∀ (engine : Anomaly → Except PyExn AnomalyAnalysis) (req : JValue) (e : PyExn),
      pyFalsy req = false → missingFieldsE req = Except.ok [] →
      buildAnomaly req = Except.error e →
      analyze_anomaly engine (some req)
        = if e.kind = ExnKind.valueError then ⟨validationEnv e.msg, 400⟩
          else ⟨internalEnv e, 500⟩) ∧
    (∀ (engine : Anomaly → Except PyExn AnomalyAnalysis)
        (kvs : List (String × JValue)) (d : PyDateTime) (vid vmn vmt : JValue) (s : String),
      pyFalsy (JValue.obj kvs) = false → missingFieldsE (JValue.obj kvs) = Except.ok [] →
      parseDetectedAt (JValue.obj kvs) = Except.ok d →
      lookupKv kvs "anomaly_id" = some vid →
      lookupKv kvs "metric_name" = some vmn →
      lookupKv kvs "metric_type" = some vmt →
      lookupKv kvs "current_value" = some (JValue.str s) →
      parseFloatLit s = none →
      analyze_anomaly engine (some (JValue.obj kvs))
        = ⟨validationEnv ("could not convert string to float: " ++ s), 400⟩) ∧
    (∀ (engine : Anomaly → Except PyExn AnomalyAnalysis)
        (kvs : List (String × JValue)) (d : PyDateTime) (vid vmn vmt : JValue),
      pyFalsy (JValue.obj kvs) = false → missingFieldsE (JValue.obj kvs) = Except.ok [] →
      parseDetectedAt (JValue.obj kvs) = Except.ok d →
      lookupKv kvs "anomaly_id" = some vid →
      lookupKv kvs "metric_name" = some vmn →
      lookupKv kvs "metric_type" = some vmt →
      lookupKv kvs "current_value" = some JValue.null →
      analyze_anomaly engine (some (JValue.obj kvs))
        = ⟨internalEnv (PyExn.typeError
            "float() argument must be a string or a real number, not NoneType"), 500⟩) := by
  refine ⟨?_, ?_, ?_⟩
  · intro engine req e h1 h2 h3
    exact analyze_of_buildAnomaly_error engine req e h1 h2 h3
  · intro engine kvs d vid vmn vmt s h1 h2 hdt hid hmn hmt hcv hs
    have hf : pyFloat (JValue.str s)
        = Except.error (PyExn.valueError ("could not convert string to float: " ++ s)) := by
      simp [pyFloat, hs]
    have hb := buildAnomaly_error_cv kvs d vid vmn vmt (JValue.str s) _ hdt hid hmn hmt hcv hf
    rw [analyze_of_buildAnomaly_error engine _ _ h1 h2 hb]
    rfl
  · intro engine kvs d vid vmn vmt h1 h2 hdt hid hmn hmt hcv
    have hf : pyFloat JValue.null
        = Except.error (PyExn.typeError
            "float() argument must be a string or a real number, not NoneType") := rfl
    have hb := buildAnomaly_error_cv kvs d vid vmn vmt JValue.null _ hdt hid hmn hmt hcv hf
    rw [analyze_of_buildAnomaly_error engine _ _ h1 h2 hb]
    rfl

/-- C4 (witness for the amended theorem): the section-8 request with
`current_value` set to the string `abc` concretely yields the 400
validation envelope carrying CPython's coercion message. -/
theorem c4_numeric_coercion_failures_witness :
    analyze_anomaly engineRaisingRuntimeError (some reqBadCv)
      = ⟨validationEnv "could not convert string to float: abc", 400⟩ :=
  c4_numeric_coercion_failures.2.1 engineRaisingRuntimeError
    [("anomaly_id", JValue.str "anom_1"),
     ("detected_at", JValue.str "2024-12-16T14:05:30Z"),
     ("metric_name", JValue.str "error_rate"),
     ("metric_type", JValue.str "error_rate"),
     ("current_value", JValue.str "abc"),
     ("baseline_value", JValue.num 2.3),
     ("deviation_sigma", JValue.num 5.2),
     ("deviation_percentage", JValue.num 574.0),
     ("anomaly_type", JValue.str "stability"),
     ("severity", JValue.str "high")]
    dt0 (JValue.str "anom_1") (JValue.str "error_rate") (JValue.str "error_rate") "abc"
    rfl rfl rfl rfl rfl rfl rfl rfl

theorem bind_ok_inv {α β : Type} {x : Except PyExn α} {f : α → Except PyExn β} {b : β}
    (h : (x >>= f) = Except.ok b) : ∃ a, x = Except.ok a ∧ f a = Except.ok b := by
  cases x with
  | ok a => exact ⟨a, rfl, h⟩
  | error e => exact Except.noConfusion h

theorem pyDictGet_ok_inv (x : JValue) (k : String) (d v : JValue)
    (h : pyDictGet x k d = Except.ok v) :
    (jsonGetOpt x k = none → v = d) ∧ (∀ w, jsonGetOpt x k = some w → v = w) := by
  cases x with
  | obj kvs =>
    simp only [pyDictGet, Except.ok.injEq] at h
    subst h
    simp only [jsonGetOpt]
    cases hl : lookupKv kvs k with
    | none => exact ⟨fun _ => rfl, fun w hw => Option.noConfusion hw⟩
    | some w0 =>
      exact ⟨fun hn => Option.noConfusion hn, fun w hw => by rw [← Option.some.inj hw]; rfl⟩
  | null => exact Except.noConfusion h
  | bool b => exact Except.noConfusion h
  | num q => exact Except.noConfusion h
  | str s => exact Except.noConfusion h
  | arr xs => exact Except.noConfusion h

theorem buildAnomaly_ok_optional (req : JValue) (a : Anomaly)
    (h : buildAnomaly req = Except.ok a) :
    pyDictGet req "confidence" (JValue.num 0.8) = Except.ok a.confidence ∧
    pyDictGet req "affected_resources" (JValue.arr []) = Except.ok a.affected_resources ∧
    (∃ tw, pyDictGet req "time_window" (JValue.obj []) = Except.ok tw ∧
      a.time_window = TimeWindow.raw tw) ∧
    pyDictGet req "related_metrics" (JValue.obj []) = Except.ok a.related_metrics ∧
    pyDictGet req "metadata" (JValue.obj []) = Except.ok a.metadata := by
  unfold buildAnomaly at h
  obtain ⟨d, h1, h⟩ := bind_ok_inv h
  obtain ⟨vid, h2, h⟩ := bind_ok_inv h
  obtain ⟨vmn, h3, h⟩ := bind_ok_inv h
  obtain ⟨vmt, h4, h⟩ := bind_ok_inv h
  obtain ⟨cv, h5, h⟩ := bind_ok_inv h
  obtain ⟨bv, h6, h⟩ := bind_ok_inv h
  obtain ⟨ds, h7, h⟩ := bind_ok_inv h
  obtain ⟨dp, h8, h⟩ := bind_ok_inv h
  obtain ⟨vty, h9, h⟩ := bind_ok_inv h
  obtain ⟨ty, h10, h⟩ := bind_ok_inv h
  obtain ⟨vsv, h11, h⟩ := bind_ok_inv h
  obtain ⟨sv, h12, h⟩ := bind_ok_inv h
  obtain ⟨cf, h13, h⟩ := bind_ok_inv h
  obtain ⟨ar, h14, h⟩ := bind_ok_inv h
  obtain ⟨tw, h15, h⟩ := bind_ok_inv h
  obtain ⟨rm, h16, h⟩ := bind_ok_inv h
  obtain ⟨md, h17, h⟩ := bind_ok_inv h
  have ha := (Except.ok.inj h).symm
  subst ha
  exact ⟨h13, h14, ⟨tw, h15, rfl⟩, h16, h17⟩

/-- C10: for every request the validator accepts, an absent `confidence`
key yields `confidence == 0.8` and each absent optional context field
defaults to its empty form, while an explicitly supplied `confidence` is
stored exactly as given — whatever its value, with no clamping and no
rejection. -/
theorem c10_confidence_default_and_passthrough (req : JValue) (a : Anomaly)
    (h : buildAnomaly req = Except.ok a) :
    (jsonGetOpt req "confidence" = none → a.confidence = JValue.num 0.8) ∧
    (∀ v, jsonGetOpt req "confidence" = some v → a.confidence = v) ∧
    (jsonGetOpt req "affected_resources" = none → a.affected_resources = JValue.arr []) ∧
    (jsonGetOpt req "time_window" = none → a.time_window = TimeWindow.raw (JValue.obj [])) ∧
    (jsonGetOpt req "related_metrics" = none → a.related_metrics = JValue.obj []) ∧
    (jsonGetOpt req "metadata" = none → a.metadata = JValue.obj []) := by
  obtain ⟨hcf, har, ⟨tw, htw, htw2⟩, hrm, hmd⟩ := buildAnomaly_ok_optional req a h
  refine ⟨(pyDictGet_ok_inv _ _ _ _ hcf).1, (pyDictGet_ok_inv _ _ _ _ hcf).2, 
    (pyDictGet_ok_inv _ _ _ _ har).1, ?_, (pyDictGet_ok_inv _ _ _ _ hrm).1,
    (pyDictGet_ok_inv _ _ _ _ hmd).1⟩
  intro hn
  rw [htw2, (pyDictGet_ok_inv _ _ _ _ htw).1 hn]

/-- C10 (witness): the section-8 literal without `confidence` produces the
`Anomaly` with `confidence == 0.8` and empty context fields, and with an
explicit `confidence` of 1.5 the stored value is exactly 1.5. -/
theorem c10_confidence_witness :
    buildAnomaly req8 = Except.ok anomaly0 ∧
    anomaly0.confidence = JValue.num 0.8 ∧
    anomaly0.affected_resources = JValue.arr [] ∧
    anomaly0.time_window = TimeWindow.raw (JValue.obj []) ∧
    anomaly0.related_metrics = JValue.obj [] ∧
    anomaly0.metadata = JValue.obj [] ∧
    buildAnomaly reqConf15 = Except.ok anomalyConf15 ∧
    anomalyConf15.confidence = JValue.num 1.5 := by
  have h0 := c10_confidence_default_and_passthrough req8 anomaly0 rfl
  have h1 := c10_confidence_default_and_passthrough reqConf15 anomalyConf15 rfl
  exact ⟨rfl, h0.1 rfl, h0.2.2.1 rfl, h0.2.2.2.1 rfl, h0.2.2.2.2.1 rfl, h0.2.2.2.2.2 rfl,
    rfl, h1.2.1 (JValue.num 1.5) rfl⟩

/-- C5: the success envelope contains `human_readable_summary` exactly when
the analysis carries a non-absent summary (`if analysis.summary:` tests
object presence — dataclass instances are always truthy — so an all-empty
`HumanReadableSummary` is still included and remains distinguishable from
an absent one), and the same holds for the `summary` key of
`AnomalyAnalysis.to_dict`. -/
theorem c5_summary_presence_iff (an : AnomalyAnalysis) :
    objHasKey (buildResponse an) "human_readable_summary" = an.summary.isSome ∧
    ∀ d, AnomalyAnalysis.to_dict an = Except.ok d →
      objHasKey d "summary" = an.summary.isSome := by
  constructor
  · cases hs : an.summary with
    | none => simp [buildResponse, hs, objHasKey]
    | some s => simp [buildResponse, hs, objHasKey]
  · intro d hd
    unfold AnomalyAnalysis.to_dict at hd
    obtain ⟨ad, h1, hd⟩ := bind_ok_inv hd
    cases hs : an.summary with
    | none =>
      rw [hs] at hd
      rw [← Except.ok.inj hd]
      simp [objHasKey]
    | some s =>
      rw [hs] at hd
      rw [← Except.ok.inj hd]
      simp [objHasKey, List.any_append]

/-- C5 (witness): `analysis0` carries an all-empty-string summary; its
success envelope contains `human_readable_summary` and its `to_dict`
serialization contains `summary`. -/
theorem c5_summary_presence_iff_witness :
    analysis0.summary = some ⟨"", "", "", "", ""⟩ ∧
    objHasKey (buildResponse analysis0) "human_readable_summary" = true ∧
    AnomalyAnalysis.to_dict analysis0 = Except.ok dict0 ∧
    objHasKey dict0 "summary" = true := by
  refine ⟨rfl, ?_, rfl, ?_⟩
  · rw [(c5_summary_presence_iff analysis0).1]
    rfl
  · rw [(c5_summary_presence_iff analysis0).2 dict0 rfl]
    rfl

theorem handlerCore_ok_shape (engine : Anomaly → Except PyExn AnomalyAnalysis)
    (body : Option JValue) (r : HttpResponse)
    (h : handlerCore engine body = Except.ok r) :
    r = ⟨invalidRequestEnv, 400⟩ ∨ (∃ m, r = ⟨missingEnv m, 400⟩) ∨
    ∃ an, r = ⟨buildResponse an, 200⟩ := by
  cases body with
  | none => exact Or.inl (Except.ok.inj h).symm
  | some req =>
    simp only [handlerCore] at h
    by_cases hf : pyFalsy req = true
    · rw [if_pos hf] at h
      exact Or.inl (Except.ok.inj h).symm
    · rw [if_neg hf] at h
      obtain ⟨m, hm, h⟩ := bind_ok_inv h
      cases m with
      | cons f t => exact Or.inr (Or.inl ⟨f :: t, (Except.ok.inj h).symm⟩)
      | nil =>
        obtain ⟨a, hb, h⟩ := bind_ok_inv h
        obtain ⟨an, he, h⟩ := bind_ok_inv h
        exact Or.inr (Or.inr ⟨an, (Except.ok.inj h).symm⟩)

theorem analyze_status200_shape (engine : Anomaly → Except PyExn AnomalyAnalysis)
    (body : Option JValue)
    (h200 : (analyze_anomaly engine body).status = 200) :
    ∃ an, analyze_anomaly engine body = ⟨buildResponse an, 200⟩ := by
  cases hc : handlerCore engine body with
  | error e =>
    have hr : analyze_anomaly engine body
        = if e.kind = ExnKind.valueError then ⟨validationEnv e.msg, 400⟩
          else ⟨internalEnv e, 500⟩ := by
      unfold analyze_anomaly
      rw [hc]
    rw [hr] at h200
    by_cases hk : e.kind = ExnKind.valueError
    · rw [if_pos hk] at h200
      simp at h200
    · rw [if_neg hk] at h200
      simp at h200
  | ok r =>
    have hr : analyze_anomaly engine body = r := by
      unfold analyze_anomaly
      rw [hc]
    rcases handlerCore_ok_shape engine body r hc with h1 | ⟨m, h1⟩ | ⟨an, h1⟩
    · rw [hr, h1] at h200
      simp at h200
    · rw [hr, h1] at h200
      simp at h200
    · exact ⟨an, by rw [hr, h1]⟩

theorem buildResponse_required_keys (an : AnomalyAnalysis) :
    jsonGetOpt (buildResponse an) "success" = some (JValue.bool true) ∧
    objHasKey (buildResponse an) "anomaly_id" = true ∧
    objHasKey (buildResponse an) "root_cause" = true ∧
    objHasKey (buildResponse an) "recommendations" = true ∧
    objHasKey (buildResponse an) "analyzed_at" = true ∧
    objHasKey (buildResponse an) "ai_model_used" = true ∧
    objHasKey (buildResponse an) "analysis_duration_ms" = true ∧
    jsonGetOpt (buildResponse an) "saved_to_bigquery" = some (JValue.bool true) := by
  cases hs : an.summary with
  | none =>
    refine ⟨?_, ?_, ?_, ?_, ?_, ?_, ?_, ?_⟩ <;>
      simp [buildResponse, hs, objHasKey, jsonGetOpt, lookupKv]
  | some s =>
    refine ⟨?_, ?_, ?_, ?_, ?_, ?_, ?_, ?_⟩ <;>
      simp [buildResponse, hs, objHasKey, jsonGetOpt, lookupKv]

/-- C6: every success (200) envelope of `analyze_anomaly` carries
`success = true`, `anomaly_id`, `root_cause`, `recommendations`,
`analyzed_at`, `ai_model_used`, `analysis_duration_ms`, and
`saved_to_bigquery = true` — the persistence flag is hard-coded true
independent of any persistence outcome, since the handler performs no
persistence at all. -/
theorem c6_success_envelope_keys (engine : Anomaly → Except PyExn AnomalyAnalysis)
    (body : Option JValue)
    (h200 : (analyze_anomaly engine body).status = 200) :
    jsonGetOpt (analyze_anomaly engine body).body "success" = some (JValue.bool true) ∧
    objHasKey (analyze_anomaly engine body).body "anomaly_id" = true ∧
    objHasKey (analyze_anomaly engine body).body "root_cause" = true ∧
    objHasKey (analyze_anomaly engine body).body "recommendations" = true ∧
    objHasKey (analyze_anomaly engine body).body "analyzed_at" = true ∧
    objHasKey (analyze_anomaly engine body).body "ai_model_used" = true ∧
    objHasKey (analyze_anomaly engine body).body "analysis_duration_ms" = true ∧
    jsonGetOpt (analyze_anomaly engine body).body "saved_to_bigquery"
      = some (JValue.bool true) := by
  obtain ⟨an, h⟩ := analyze_status200_shape engine body h200
  rw [h]
  exact buildResponse_required_keys an

/-- C6 (witness): with an engine returning `analysis0`, the section-8
request yields a 200 response whose envelope carries the required keys and
`saved_to_bigquery = true`. -/
theorem c6_success_envelope_keys_witness :
    (analyze_anomaly engineReturningAnalysis0 (some req8)).status = 200 ∧
    jsonGetOpt (analyze_anomaly engineReturningAnalysis0 (some req8)).body "success"
      = some (JValue.bool true) ∧
    jsonGetOpt (analyze_anomaly engineReturningAnalysis0 (some req8)).body "saved_to_bigquery"
      = some (JValue.bool true) := by
  have h := c6_success_envelope_keys engineReturningAnalysis0 (some req8) rfl
  exact ⟨rfl, h.1, h.2.2.2.2.2.2.2⟩

theorem buildAnomaly_eval (kvs : List (String × JValue)) (sdt : String)
    (vid vmn vmt vcv vbv vds vdp vty vsv : JValue) (cv bv ds dp : Rat)
    (ty : AnomalyType) (sv : Severity)
    (hdt : lookupKv kvs "detected_at" = some (JValue.str sdt))
    (hcanon : canonChars (replaceZ sdt).data = true)
    (hid : lookupKv kvs "anomaly_id" = some vid)
    (hmn : lookupKv kvs "metric_name" = some vmn)
    (hmt : lookupKv kvs "metric_type" = some vmt)
    (hcv : lookupKv kvs "current_value" = some vcv)
    (hcv2 : pyFloat vcv = Except.ok cv)
    (hbv : lookupKv kvs "baseline_value" = some vbv)
    (hbv2 : pyFloat vbv = Except.ok bv)
    (hds : lookupKv kvs "deviation_sigma" = some vds)
    (hds2 : pyFloat vds = Except.ok ds)
    (hdp : lookupKv kvs "deviation_percentage" = some vdp)
    (hdp2 : pyFloat vdp = Except.ok dp)
    (hty : lookupKv kvs "anomaly_type" = some vty)
    (hty2 : parseAnomalyType vty = Except.ok ty)
    (hsv : lookupKv kvs "severity" = some vsv)
    (hsv2 : parseSeverity vsv = Except.ok sv) :
    buildAnomaly (JValue.obj kvs) = Except.ok
      { anomaly_id := vid
        detected_at := ⟨replaceZ sdt, hcanon⟩
        metric_name := vmn
        metric_type := vmt
        current_value := cv
        baseline_value := bv
        deviation_sigma := ds
        deviation_percentage := dp
        anomaly_type := ty
        severity := sv
        confidence := (lookupKv kvs "confidence").getD (JValue.num 0.8)
        affected_resources := (lookupKv kvs "affected_resources").getD (JValue.arr [])
        time_window := TimeWindow.raw ((lookupKv kvs "time_window").getD (JValue.obj []))
        related_metrics := (lookupKv kvs "related_metrics").getD (JValue.obj [])
        metadata := (lookupKv kvs "metadata").getD (JValue.obj []) } := by
  simp [buildAnomaly, parseDetectedAt, jsonGet, coerceNumeric, pyDictGet, pyReplaceZ,
    fromisoformat, hdt, hcanon, hid, hmn, hmt, hcv, hcv2, hbv, hbv2, hds, hds2,
    hdp, hdp2, hty, hty2, hsv, hsv2]

theorem anomaly_to_dict_empty_tw (a : Anomaly)
    (h : a.time_window = TimeWindow.raw (JValue.obj [])) :
    Anomaly.to_dict a = Except.ok (JValue.obj
      [("anomaly_id", a.anomaly_id),
       ("detected_at", JValue.str a.detected_at.iso),
       ("metric_name", a.metric_name),
       ("metric_type", a.metric_type),
       ("current_value", JValue.num a.current_value),
       ("baseline_value", JValue.num a.baseline_value),
       ("deviation_sigma", JValue.num a.deviation_sigma),
       ("deviation_percentage", JValue.num a.deviation_percentage),
       ("anomaly_type", JValue.str a.anomaly_type.value),
       ("severity", JValue.str a.severity.value),
       ("confidence", a.confidence),
       ("affected_resources", a.affected_resources),
       ("time_window", JValue.obj []),
       ("related_metrics", a.related_metrics),
       ("metadata", a.metadata)]) := by
  simp [Anomaly.to_dict, h, twToDict, twItems]

/-- C9 (amended): for every request mapping containing the ten required
fields with well-typed values (parseable timestamp, coercible numerics,
valid enum strings) and an absent or empty `time_window`, `Anomaly`
construction succeeds and `to_dict` round-trips every field: re-running the
validator on the serialized dict reconstructs an `Anomaly` equal to the
original in every field. -/
theorem c9_round_trip (kvs : List (String × JValue)) (sdt : String)
    (vid vmn vmt vcv vbv vds vdp vty vsv : JValue) (cv bv ds dp : Rat)
    (ty : AnomalyType) (sv : Severity)
    (hdt : lookupKv kvs "detected_at" = some (JValue.str sdt))
    (hcanon : canonChars (replaceZ sdt).data = true)
    (hid : lookupKv kvs "anomaly_id" = some vid)
    (hmn : lookupKv kvs "metric_name" = some vmn)
    (hmt : lookupKv kvs "metric_type" = some vmt)
    (hcv : lookupKv kvs "current_value" = some vcv)
    (hcv2 : pyFloat vcv = Except.ok cv)
    (hbv : lookupKv kvs "baseline_value" = some vbv)
    (hbv2 : pyFloat vbv = Except.ok bv)
    (hds : lookupKv kvs "deviation_sigma" = some vds)
    (hds2 : pyFloat vds = Except.ok ds)
    (hdp : lookupKv kvs "deviation_percentage" = some vdp)
    (hdp2 : pyFloat vdp = Except.ok dp)
    (hty : lookupKv kvs "anomaly_type" = some vty)
    (hty2 : parseAnomalyType vty = Except.ok ty)
    (hsv : lookupKv kvs "severity" = some vsv)
    (hsv2 : parseSeverity vsv = Except.ok sv)
    (htw : (lookupKv kvs "time_window").getD (JValue.obj []) = JValue.obj []) :
    ∃ a, buildAnomaly (JValue.obj kvs) = Except.ok a ∧
      (Anomaly.to_dict a).bind buildAnomaly = Except.ok a := by
  have hdtfix : replaceZ (replaceZ sdt) = replaceZ sdt :=
    replaceZ_of_canon _ hcanon
  have hcanon2 : canonChars (replaceZ (replaceZ sdt)).data = true := by
    rw [hdtfix]
    exact hcanon
  have h1 := buildAnomaly_eval kvs sdt vid vmn vmt vcv vbv vds vdp vty vsv cv bv ds dp ty sv
    hdt hcanon hid hmn hmt hcv hcv2 hbv hbv2 hds hds2 hdp hdp2 hty hty2 hsv hsv2
  refine ⟨_, h1, ?_⟩
  rw [anomaly_to_dict_empty_tw _ (by simp [htw])]
  show buildAnomaly (JValue.obj
      [("anomaly_id", vid),
       ("detected_at", JValue.str (replaceZ sdt)),
       ("metric_name", vmn),
       ("metric_type", vmt),
       ("current_value", JValue.num cv),
       ("baseline_value", JValue.num bv),
       ("deviation_sigma", JValue.num ds),
       ("deviation_percentage", JValue.num dp),
       ("anomaly_type", JValue.str ty.value),
       ("severity", JValue.str sv.value),
       ("confidence", (lookupKv kvs "confidence").getD (JValue.num 0.8)),
       ("affected_resources", (lookupKv kvs "affected_resources").getD (JValue.arr [])),
       ("time_window", JValue.obj []),
       ("related_metrics", (lookupKv kvs "related_metrics").getD (JValue.obj [])),
       ("metadata", (lookupKv kvs "metadata").getD (JValue.obj []))])
    = Except.ok _
  rw [buildAnomaly_eval _ (replaceZ sdt) vid vmn vmt
    (JValue.num cv) (JValue.num bv) (JValue.num ds) (JValue.num dp)
    (JValue.str ty.value) (JValue.str sv.value) cv bv ds dp ty sv
    (by simp [lookupKv]) hcanon2 (by simp [lookupKv]) (by simp [lookupKv])
    (by simp [lookupKv]) (by simp [lookupKv]) rfl (by simp [lookupKv]) rfl
    (by simp [lookupKv]) rfl (by simp [lookupKv]) rfl
    (by simp [lookupKv]) (parseAnomalyType_value ty)
    (by simp [lookupKv]) (parseSeverity_value sv)]
  refine congrArg Except.ok ?_
  show Anomaly.mk vid ⟨replaceZ (replaceZ sdt), hcanon2⟩ vmn vmt cv bv ds dp ty sv
      ((lookupKv kvs "confidence").getD (JValue.num 0.8))
      ((lookupKv kvs "affected_resources").getD (JValue.arr []))
      (TimeWindow.raw (JValue.obj []))
      ((lookupKv kvs "related_metrics").getD (JValue.obj []))
      ((lookupKv kvs "metadata").getD (JValue.obj []))
    = Anomaly.mk vid ⟨replaceZ sdt, hcanon⟩ vmn vmt cv bv ds dp ty sv
      ((lookupKv kvs "confidence").getD (JValue.num 0.8))
      ((lookupKv kvs "affected_resources").getD (JValue.arr []))
      (TimeWindow.raw ((lookupKv kvs "time_window").getD (JValue.obj [])))
      ((lookupKv kvs "related_metrics").getD (JValue.obj []))
      ((lookupKv kvs "metadata").getD (JValue.obj []))
  rw [htw, show (⟨replaceZ (replaceZ sdt), hcanon2⟩ : PyDateTime)
      = ⟨replaceZ sdt, hcanon⟩ from PyDateTime.ext hdtfix]

/-- C9 (counterexample): the section-8 literal extended with a non-empty
`time_window` of ISO-8601 text is a well-typed input mapping, and the
validator accepts it, but serializing the constructed `Anomaly` already
fails (`AttributeError` from `isoformat` on the uncoerced string), so the
serialize-reparse round trip does not return the original `Anomaly`. -/
theorem c9_counterexample_time_window :
    isOkE (buildAnomaly reqTimeWindow) = true ∧
    (buildAnomaly reqTimeWindow).bind (fun a => (Anomaly.to_dict a).bind buildAnomaly)
      = Except.error (PyExn.attributeError "str object has no attribute isoformat") :=
  ⟨rfl, rfl⟩

/-- C9 (witness for the amended theorem): the section-8 literal request
round-trips concretely — construction yields `anomaly0`, and re-validating
its `to_dict` output yields `anomaly0` again. -/
theorem c9_round_trip_witness :
    buildAnomaly req8 = Except.ok anomaly0 ∧
    (Anomaly.to_dict anomaly0).bind buildAnomaly = Except.ok anomaly0 := by
  have hb : buildAnomaly req8 = Except.ok anomaly0 := rfl
  obtain ⟨a, h1, h2⟩ := c9_round_trip
    [("anomaly_id", JValue.str "anom_1"),
     ("detected_at", JValue.str "2024-12-16T14:05:30Z"),
     ("metric_name", JValue.str "error_rate"),
     ("metric_type", JValue.str "error_rate"),
     ("current_value", JValue.num 15.5),
     ("baseline_value", JValue.num 2.3),
     ("deviation_sigma", JValue.num 5.2),
     ("deviation_percentage", JValue.num 574.0),
     ("anomaly_type", JValue.str "stability"),
     ("severity", JValue.str "high")]
    "2024-12-16T14:05:30Z"
    (JValue.str "anom_1") (JValue.str "error_rate") (JValue.str "error_rate")
    (JValue.num 15.5) (JValue.num 2.3) (JValue.num 5.2) (JValue.num 574.0)
    (JValue.str "stability") (JValue.str "high")
    15.5 2.3 5.2 574.0 AnomalyType.stability Severity.high
    rfl rfl rfl rfl rfl rfl rfl rfl rfl rfl rfl rfl rfl rfl rfl rfl rfl rfl
  have ha : a = anomaly0 := Except.ok.inj (h1.symm.trans hb)
  rw [ha] at h2
  exact ⟨hb, h2⟩
